import Mathlib

/-!
Verification of the network-synchronization core of the `hydra-bot` client
(a Rust client for the Chocolate Doom 3 network protocol).

The Lean definitions below are a shallow embedding of the Rust sources:

* `src/net/packet.rs` — wire codec (`Packet`, `read_*` / `write_*`);
* `src/net/client.rs` — session client (`parse_*`, window engine, resends);
* `src/game.rs`       — loop driver (`Game::tick` wait loop).

Machine integers are modelled as `Nat` / `Int` with explicit wrap-around
(`% 2^32` etc.) where the Rust release semantics wraps.  Fallible reads
return an explicit result: `RRes.fail` models `Option::None` (a short or
malformed read), `RRes.panicked` models a Rust panic (an out-of-bounds
index).  Wall-clock `Instant` values are modelled as absolute milliseconds
(`Nat`), with the current time passed in as a `now` parameter; `elapsed`
becomes saturating subtraction, matching `Instant::elapsed`.

Fields of the Rust `Client` that no theorem below mentions (the UDP
socket, the reliable-packet queue, the f32 PID controller and the latency
bookkeeping written by `update_clock_sync`, player-name strings) are
omitted from the state record; the embedded functions touch none of them
except `update_clock_sync`, which writes only omitted fields.
-/

namespace HydraBot

/-! ## Machine-integer helpers (Rust casts and wrapping arithmetic) -/

/-- Two's-complement reading of a byte as Rust `i8` (`b as i8`). -/
def toI8 (b : Nat) : Int := if b < 128 then (b : Int) else (b : Int) - 256

/-- Two's-complement reading of a 16-bit value as Rust `i16`. -/
def toI16 (n : Nat) : Int := if n < 32768 then (n : Int) else (n : Int) - 65536

/-- Two's-complement reading of a 32-bit value as Rust `i32`. -/
def toI32 (n : Nat) : Int := if n < 2147483648 then (n : Int) else (n : Int) - 4294967296

/-- Rust `as u8` on a signed value (two's-complement truncation). -/
def intU8 (v : Int) : Nat := (v % 256).toNat

/-- Rust `as u32` on a signed value. -/
def u32OfInt (v : Int) : Nat := (v % 4294967296).toNat

/-- Rust `as usize` (64-bit) on a signed value. -/
def usizeCast (v : Int) : Nat := (v % 18446744073709551616).toNat

/-- Wrapping `u32` addition. -/
def u32add (a b : Nat) : Nat := (a + b) % 4294967296

/-- Wrapping `u32` subtraction (`a.wrapping_sub(b)` for `a, b < 2^32`). -/
def u32sub (a b : Nat) : Nat := (a + 4294967296 - b % 4294967296) % 4294967296

/-- Wrapping `i32` arithmetic: reduce an integer into `[-2^31, 2^31)`. -/
def i32wrap (v : Int) : Int := (v + 2147483648) % 4294967296 - 2147483648

/-! ## Byte-buffer codec (src/net/packet.rs)

A `Packet` is a byte buffer with a read cursor, as in the Rust struct.
Bytes are `Nat`s; well-formed buffers have all bytes `< 256`. -/

structure Packet where
  data : List Nat
  pos : Nat
deriving DecidableEq

/-- Result of running a Rust function: `ok`, `fail` (= `Option::None`,
a short read or a rejected decode) or `panicked` (an out-of-bounds
index panic). -/
inductive RRes (α : Type) where
  | panicked
  | fail
  | ok (a : α)
deriving DecidableEq

/-- Reader over a `Packet`: the Rust `read_*` methods mutate `self.pos`,
so a reader returns the advanced packet together with its result. -/
def Rd (α : Type) : Type := Packet → RRes α × Packet

instance : Monad Rd where
  pure a := fun p => (RRes.ok a, p)
  bind m f := fun p =>
    match m p with
    | (RRes.ok a, p2) => f a p2
    | (RRes.fail, p2) => (RRes.fail, p2)
    | (RRes.panicked, p2) => (RRes.panicked, p2)

/-- A reader that fails (the source returned `None`). -/
def rdFail {α : Type} : Rd α := fun p => (RRes.fail, p)

/-- A reader that panics (an out-of-bounds slice index in the source). -/
def rdPanic {α : Type} : Rd α := fun p => (RRes.panicked, p)

/-- `Packet::read_u8`. -/
def readU8 : Rd Nat := fun p =>
  match p.data.get? p.pos with
  | some b => (RRes.ok b, { p with pos := p.pos + 1 })
  | none => (RRes.fail, p)

/-- `Packet::read_i8` (`read_u8` then `as i8`). -/
def readI8 : Rd Int := do
  let b ← readU8
  pure (toI8 b)

/-- `Packet::read_u16`.  NOTE: the source decodes with
`u16::from_be_bytes`, i.e. big-endian, although all writes are
little-endian. -/
def readU16 : Rd Nat := fun p =>
  match p.data.get? p.pos, p.data.get? (p.pos + 1) with
  | some b0, some b1 => (RRes.ok (b0 * 256 + b1), { p with pos := p.pos + 2 })
  | _, _ => (RRes.fail, p)

/-- `Packet::read_i16` (`read_u16` then `as i16`). -/
def readI16 : Rd Int := do
  let n ← readU16
  pure (toI16 n)

/-- `Packet::read_u32`.  Big-endian, like `read_u16`. -/
def readU32 : Rd Nat := fun p =>
  match p.data.get? p.pos, p.data.get? (p.pos + 1),
        p.data.get? (p.pos + 2), p.data.get? (p.pos + 3) with
  | some b0, some b1, some b2, some b3 =>
      (RRes.ok (b0 * 16777216 + b1 * 65536 + b2 * 256 + b3), { p with pos := p.pos + 4 })
  | _, _, _, _ => (RRes.fail, p)

/-- `Packet::read_i32` (`read_u32` then `as i32`). -/
def readI32 : Rd Int := do
  let n ← readU32
  pure (toI32 n)

/-- `Packet::read_string`: bytes up to the next NUL; `None` when no NUL
remains (the cursor is then not advanced).  Strings are modelled as raw
byte lists (the `String::from_utf8_lossy` re-coding is irrelevant to the
claims, which only use ASCII inputs). -/
def readString : Rd (List Nat) := fun p =>
  let rest := p.data.drop p.pos
  match rest.findIdx? (fun c => c == 0) with
  | some k => (RRes.ok (rest.take k), { p with pos := p.pos + k + 1 })
  | none => (RRes.fail, p)

/-- `Packet::read_sha1sum`: 20 raw bytes. -/
def readSha1 : Rd (List Nat) := fun p =>
  if p.pos + 20 ≤ p.data.length then
    (RRes.ok ((p.data.drop p.pos).take 20), { p with pos := p.pos + 20 })
  else (RRes.fail, p)

/-- Little-endian bytes of a `u16` (`value.to_le_bytes`, `write_u16`). -/
def writeU16le (v : Nat) : List Nat := [v % 256, v / 256 % 256]

/-- `write_i16` (two's-complement, little-endian). -/
def writeI16le (v : Int) : List Nat :=
  let n := (v % 65536).toNat
  [n % 256, n / 256]

/-- Little-endian bytes of a `u32` (`write_u32`). -/
def writeU32le (v : Nat) : List Nat :=
  [v % 256, v / 256 % 256, v / 65536 % 256, v / 16777216 % 256]

/-! ## Tic commands and diffs (src/net/mod.rs, src/net/packet.rs) -/

/-- One player's input for one tic (`TicCmd`).  Signed fields are `Int`
(`i8`/`i16`/`i32` in the source), unsigned byte fields are `Nat`. -/
structure TicCmd where
  forwardmove : Int
  sidemove : Int
  angleturn : Int
  chatchar : Nat
  buttons : Nat
  consistancy : Nat
  buttons2 : Nat
  inventory : Int
  lookfly : Nat
  arti : Nat
deriving DecidableEq

/-- `TicCmd::default()`: all fields zero. -/
def TicCmd.default : TicCmd := ⟨0, 0, 0, 0, 0, 0, 0, 0, 0, 0⟩

def NET_TICDIFF_FORWARD : Nat := 1
def NET_TICDIFF_SIDE : Nat := 2
def NET_TICDIFF_TURN : Nat := 4
def NET_TICDIFF_BUTTONS : Nat := 8
def NET_TICDIFF_CONSISTANCY : Nat := 16
def NET_TICDIFF_CHATCHAR : Nat := 32
def NET_TICDIFF_RAVEN : Nat := 64
def NET_TICDIFF_STRIFE : Nat := 128

/-- `TicDiff`: a bitmask plus a `TicCmd` carrying the changed fields. -/
structure TicDiff where
  diff : Nat
  cmd : TicCmd
deriving DecidableEq

def TicDiff.default : TicDiff := ⟨0, TicCmd.default⟩

/-- `Packet::read_ticcmd_diff`.  Fields whose bit is absent keep the
`Default` value 0; the event fields (`chatchar`, `arti`, `inventory`)
are explicitly zeroed in the source, which is the same value. -/
def readTiccmdDiff (lowresTurn : Bool) : Rd TicDiff := do
  let d ← readU8
  let fm ← if d &&& NET_TICDIFF_FORWARD ≠ 0 then readI8 else pure 0
  let sm ← if d &&& NET_TICDIFF_SIDE ≠ 0 then readI8 else pure 0
  let tn ← if d &&& NET_TICDIFF_TURN ≠ 0 then
      (if lowresTurn then do
        let v ← readI8
        pure (v * 256)
      else readI16)
    else pure 0
  let bt ← if d &&& NET_TICDIFF_BUTTONS ≠ 0 then readU8 else pure 0
  let cs ← if d &&& NET_TICDIFF_CONSISTANCY ≠ 0 then readU8 else pure 0
  let cc ← if d &&& NET_TICDIFF_CHATCHAR ≠ 0 then readU8 else pure 0
  let ra ← if d &&& NET_TICDIFF_RAVEN ≠ 0 then do
      let lf ← readU8
      let ar ← readU8
      pure (lf, ar)
    else pure (0, 0)
  let st ← if d &&& NET_TICDIFF_STRIFE ≠ 0 then do
      let b2 ← readU8
      let iv ← readI16
      pure (b2, iv)
    else pure (0, 0)
  pure ⟨d, ⟨fm, sm, tn, cc, bt, cs, st.1, st.2, ra.1, ra.2⟩⟩

/-- `Packet::write_ticcmd_diff`.  With `lowres_turn`, `angleturn` is sent
as `(angleturn / 256) as i8` (Rust `/` truncates toward zero, `Int.tdiv`);
`inventory` is sent as `i16` (two's-complement truncation). -/
def writeTiccmdDiff (diff : TicDiff) (lowresTurn : Bool) : List Nat :=
  [diff.diff % 256]
  ++ (if diff.diff &&& NET_TICDIFF_FORWARD ≠ 0 then [intU8 diff.cmd.forwardmove] else [])
  ++ (if diff.diff &&& NET_TICDIFF_SIDE ≠ 0 then [intU8 diff.cmd.sidemove] else [])
  ++ (if diff.diff &&& NET_TICDIFF_TURN ≠ 0 then
        (if lowresTurn then [intU8 (diff.cmd.angleturn.tdiv 256)]
         else writeI16le diff.cmd.angleturn)
      else [])
  ++ (if diff.diff &&& NET_TICDIFF_BUTTONS ≠ 0 then [diff.cmd.buttons] else [])
  ++ (if diff.diff &&& NET_TICDIFF_CONSISTANCY ≠ 0 then [diff.cmd.consistancy] else [])
  ++ (if diff.diff &&& NET_TICDIFF_CHATCHAR ≠ 0 then [diff.cmd.chatchar] else [])
  ++ (if diff.diff &&& NET_TICDIFF_RAVEN ≠ 0 then [diff.cmd.lookfly, diff.cmd.arti] else [])
  ++ (if diff.diff &&& NET_TICDIFF_STRIFE ≠ 0 then
        [diff.cmd.buttons2] ++ writeI16le diff.cmd.inventory
      else [])

/-- `Client::calculate_ticcmd_diff`: build the diff of `ticcmd` against
the previous local tic `last`. -/
def calculateTiccmdDiff (last ticcmd : TicCmd) : TicDiff :=
  let d0 : Nat := 0
  let cmd0 := ticcmd
  let d1 := if last.forwardmove ≠ ticcmd.forwardmove then d0 ||| NET_TICDIFF_FORWARD else d0
  let d2 := if last.sidemove ≠ ticcmd.sidemove then d1 ||| NET_TICDIFF_SIDE else d1
  let d3 := if last.angleturn ≠ ticcmd.angleturn then d2 ||| NET_TICDIFF_TURN else d2
  let d4 := if last.buttons ≠ ticcmd.buttons then d3 ||| NET_TICDIFF_BUTTONS else d3
  let d5 := if last.consistancy ≠ ticcmd.consistancy then d4 ||| NET_TICDIFF_CONSISTANCY else d4
  let r6 := if ticcmd.chatchar ≠ 0 then (d5 ||| NET_TICDIFF_CHATCHAR, cmd0)
            else (d5, { cmd0 with chatchar := 0 })
  let r7 := if last.lookfly ≠ ticcmd.lookfly ∨ ticcmd.arti ≠ 0 then
              (r6.1 ||| NET_TICDIFF_RAVEN, r6.2)
            else (r6.1, { r6.2 with arti := 0 })
  let r8 := if last.buttons2 ≠ ticcmd.buttons2 ∨ ticcmd.inventory ≠ 0 then
              (r7.1 ||| NET_TICDIFF_STRIFE, r7.2)
            else (r7.1, { r7.2 with inventory := 0 })
  ⟨r8.1, r8.2⟩

/-- `Client::apply_ticcmd_diff`: reconstruct an absolute `TicCmd` from
`base` and a diff.  The source writes the result into `*result` and then
copies it back into `*base`; the returned value is both. -/
def applyTiccmdDiff (base : TicCmd) (diff : TicDiff) : TicCmd :=
  let r := base
  let r := if diff.diff &&& NET_TICDIFF_FORWARD ≠ 0 then { r with forwardmove := diff.cmd.forwardmove } else r
  let r := if diff.diff &&& NET_TICDIFF_SIDE ≠ 0 then { r with sidemove := diff.cmd.sidemove } else r
  let r := if diff.diff &&& NET_TICDIFF_TURN ≠ 0 then { r with angleturn := diff.cmd.angleturn } else r
  let r := if diff.diff &&& NET_TICDIFF_BUTTONS ≠ 0 then { r with buttons := diff.cmd.buttons } else r
  let r := if diff.diff &&& NET_TICDIFF_CONSISTANCY ≠ 0 then { r with consistancy := diff.cmd.consistancy } else r
  let r := if diff.diff &&& NET_TICDIFF_CHATCHAR ≠ 0 then { r with chatchar := diff.cmd.chatchar }
           else { r with chatchar := 0 }
  let r := if diff.diff &&& NET_TICDIFF_RAVEN ≠ 0 then { r with lookfly := diff.cmd.lookfly, arti := diff.cmd.arti }
           else { r with arti := 0 }
  let r := if diff.diff &&& NET_TICDIFF_STRIFE ≠ 0 then { r with buttons2 := diff.cmd.buttons2, inventory := diff.cmd.inventory }
           else { r with inventory := 0 }
  r

/-! ## Full tic commands (src/net/mod.rs, src/net/packet.rs) -/

/-- `FullTicCmd`: one tic's inputs for all players.  The source struct
also carries a `seq : u32` that `read_full_ticcmd` never sets (it stays
`Default`, 0) and that nothing in the client reads; it is omitted. -/
structure FullTicCmd where
  latency : Int
  playeringame : List Bool
  cmds : List TicDiff
deriving DecidableEq

def FullTicCmd.default : FullTicCmd :=
  ⟨0, List.replicate 8 false, List.replicate 8 TicDiff.default⟩

/-- The per-player loop of `read_full_ticcmd`: a `TicDiff` is read for
each player whose `playeringame` bit is set; the others keep the
`Default` diff. -/
def readCmdsForBits (lowresTurn : Bool) : List Bool → Rd (List TicDiff)
  | [] => pure []
  | b :: rest => do
      let d ← if b then readTiccmdDiff lowresTurn else pure TicDiff.default
      let ds ← readCmdsForBits lowresTurn rest
      pure (d :: ds)

/-- `Packet::read_full_ticcmd`. -/
def readFullTiccmd (lowresTurn : Bool) : Rd FullTicCmd := do
  let lat ← readI16
  let bitfield ← readU8
  let pig := (List.range 8).map (fun i => decide (bitfield &&& (1 <<< i) ≠ 0))
  let cmds ← readCmdsForBits lowresTurn pig
  pure ⟨lat, pig, cmds⟩

/-! ## Game settings codec (src/net/packet.rs) -/

/-- `GameSettings` (src/net/mod.rs).  `player_classes` is a `List Int`
standing for the fixed `[i32; 8]` array. -/
structure GameSettings where
  ticdup : Int
  extratics : Int
  deathmatch : Int
  episode : Int
  nomonsters : Int
  fast_monsters : Int
  respawn_monsters : Int
  map : Int
  skill : Int
  gameversion : Int
  lowres_turn : Int
  new_sync : Int
  timelimit : Nat
  loadgame : Int
  random : Int
  num_players : Int
  consoleplayer : Int
  player_classes : List Int
deriving DecidableEq

/-- The class-reading loop of `read_settings`:
`for i in 0..num_players as usize { player_classes[i] = read_u8()? }`.
The assignment's right-hand side is evaluated first (so a short read is
`None`), then the index: `i ≥ 8` on the length-8 array is a panic. -/
def readClassesAux : Nat → Nat → List Int → Rd (List Int)
  | 0, _, acc => pure acc
  | n + 1, i, acc => do
      let b ← readU8
      if i < acc.length then readClassesAux n (i + 1) (acc.set i (b : Int))
      else rdPanic

/-- `Packet::read_settings`.  Field order as in the source; remaining
fields come from `Default` (zero / `[0; 8]`). -/
def readSettings : Rd GameSettings := do
  let ticdup ← readU8
  let extratics ← readU8
  let deathmatch ← readU8
  let nomonsters ← readU8
  let fast ← readU8
  let respawn ← readU8
  let episode ← readU8
  let mapv ← readU8
  let skill ← readI8
  let gameversion ← readU8
  let lowres ← readU8
  let newsync ← readU8
  let timelimit ← readU32
  let loadgame ← readI8
  let random ← readU8
  let numPlayers ← readU8
  let consoleplayer ← readI8
  let classes ← readClassesAux numPlayers 0 (List.replicate 8 0)
  pure { ticdup := ticdup, extratics := extratics, deathmatch := deathmatch,
         episode := episode, nomonsters := nomonsters, fast_monsters := fast,
         respawn_monsters := respawn, map := mapv, skill := skill,
         gameversion := gameversion, lowres_turn := lowres, new_sync := newsync,
         timelimit := timelimit, loadgame := loadgame, random := random,
         num_players := numPlayers, consoleplayer := consoleplayer,
         player_classes := classes }

/-- `Packet::write_settings`.  All writes are little-endian.  The class
loop writes `player_classes[i]` for `i < num_players as usize`; the
out-of-bounds panic for `num_players as usize > 8` (outside the wire
range the claims quantify over) is not modelled on the write path. -/
def writeSettings (s : GameSettings) : List Nat :=
  [intU8 s.ticdup, intU8 s.extratics, intU8 s.deathmatch, intU8 s.nomonsters,
   intU8 s.fast_monsters, intU8 s.respawn_monsters, intU8 s.episode, intU8 s.map,
   intU8 s.skill, intU8 s.gameversion, intU8 s.lowres_turn, intU8 s.new_sync]
  ++ writeU32le s.timelimit
  ++ [intU8 s.loadgame, intU8 s.random, intU8 s.num_players, intU8 s.consoleplayer]
  ++ ((s.player_classes.take (usizeCast s.num_players)).map intU8)

/-! ## Wait data codec (src/net/packet.rs) -/

/-- `WaitData` (src/net/mod.rs).  Names and addresses are length-30
NUL-padded byte lists, 8 entries each. -/
structure WaitData where
  num_players : Int
  num_drones : Int
  ready_players : Int
  max_players : Int
  is_controller : Int
  consoleplayer : Int
  player_names : List (List Nat)
  player_addrs : List (List Nat)
  wad_sha1sum : List Nat
  deh_sha1sum : List Nat
  is_freedoom : Int
deriving DecidableEq

/-- `WaitData::default()`. -/
def WaitData.default : WaitData :=
  ⟨0, 0, 0, 0, 0, 0,
   List.replicate 8 (List.replicate 30 0), List.replicate 8 (List.replicate 30 0),
   List.replicate 20 0, List.replicate 20 0, 0⟩

/-- NUL-pad a decoded name to the fixed 30-char array. -/
def padName (l : List Nat) : List Nat := l ++ List.replicate (30 - l.length) 0

/-- The per-player loop of `read_wait_data`: read a name and an address,
reject (`None`) any of length ≥ 30 (`MAXPLAYERNAME`), store both at
index `i` (a panic when `i ≥ 8`, as `player_names` has 8 entries). -/
def readPlayersAux : Nat → Nat → List (List Nat) × List (List Nat) →
    Rd (List (List Nat) × List (List Nat))
  | 0, _, acc => pure acc
  | n + 1, i, acc => do
      let name ← readString
      if 30 ≤ name.length then rdFail
      else if i < acc.1.length then do
        let addr ← readString
        if 30 ≤ addr.length then rdFail
        else readPlayersAux n (i + 1) (acc.1.set i (padName name), acc.2.set i (padName addr))
      else rdPanic

/-- `Packet::read_wait_data`. -/
def readWaitData : Rd WaitData := do
  let np ← readU8
  let nd ← readU8
  let rp ← readU8
  let mp ← readU8
  let ic ← readU8
  let cp ← readI8
  let pls ← readPlayersAux np 0
    (List.replicate 8 (List.replicate 30 0), List.replicate 8 (List.replicate 30 0))
  let wad ← readSha1
  let deh ← readSha1
  let fd ← readU8
  pure { num_players := np, num_drones := nd, ready_players := rp, max_players := mp,
         is_controller := ic, consoleplayer := cp, player_names := pls.1,
         player_addrs := pls.2, wad_sha1sum := wad, deh_sha1sum := deh,
         is_freedoom := fd }

/-! ## Client state (src/net/client.rs) -/

/-- `ClientState`. -/
inductive CState where
  | Disconnected
  | Connecting
  | Connected
  | WaitingLaunch
  | WaitingStart
  | InGame
  | Disconnecting
deriving DecidableEq

/-- `ServerRecv`: one receive-window slot.  `resend_time` is an absolute
time in milliseconds (the `Instant` of the source). -/
structure RecvSlot where
  active : Bool
  resend_time : Nat
  cmd : FullTicCmd
deriving DecidableEq

/-- `ServerRecv::default()`.  The source stamps `Instant::now()`; the
reset helpers below take the reset time as a parameter instead. -/
def RecvSlot.default : RecvSlot := ⟨false, 0, FullTicCmd.default⟩

/-- `ServerSend`: one send-queue slot. -/
structure SendSlot where
  active : Bool
  seq : Nat
  time : Nat
  cmd : TicDiff
deriving DecidableEq

def SendSlot.default : SendSlot := ⟨false, 0, 0, TicDiff.default⟩

/-- The fields of `Client` that the embedded functions read or write.
The socket, reliable-packet bookkeeping, PID controller (f32) /
`last_latency`, name strings and handshake scratch fields are omitted;
see the file header. -/
structure ClientCore where
  state : CState
  drone : Bool
  settings : Option GameSettings
  recv_window_start : Nat
  recv_window : List RecvSlot
  send_queue : List SendSlot
  need_acknowledge : Bool
  gamedata_recv_time : Nat
  net_client_wait_data : WaitData
  net_client_received_wait_data : Bool
  max_players : Int
  is_freedoom : Int
  lowres_turn : Int
  player_class : Int
deriving DecidableEq

/-- `Client::validate_wait_data`. -/
def validateWaitData (drone : Bool) (wd : WaitData) : Bool :=
  decide (wd.num_players ≤ wd.max_players) &&
  decide (wd.ready_players ≤ wd.num_players) &&
  decide (wd.max_players ≤ (8 : Int)) &&
  ((decide ((0 : Int) ≤ wd.consoleplayer) && !drone) ||
   (decide (wd.consoleplayer < 0) && drone) ||
   decide (usizeCast wd.consoleplayer < usizeCast wd.num_players))

/-- `Client::validate_game_settings`. -/
def validateGameSettings (drone : Bool) (s : GameSettings) : Bool :=
  decide (s.num_players ≤ (8 : Int)) &&
  decide (usizeCast s.consoleplayer < usizeCast s.num_players) &&
  ((drone && decide (s.consoleplayer < 0)) ||
   (!drone && decide ((0 : Int) ≤ s.consoleplayer)))

/-- `Client::parse_waiting_data`.  The `send_ack` reply only writes to
the socket; it changes no client field. -/
def parseWaitingData (st : ClientCore) (pkt : Packet) : RRes ClientCore :=
  match (readWaitData pkt).1 with
  | RRes.ok wd =>
      if validateWaitData st.drone wd then
        RRes.ok { st with net_client_wait_data := wd,
                          net_client_received_wait_data := true,
                          max_players := wd.max_players,
                          is_freedoom := wd.is_freedoom }
      else RRes.ok st
  | RRes.fail => RRes.ok st
  | RRes.panicked => RRes.panicked

/-- `Client::init_game_state`: reset the window start and both windows.
`now` is the reset instant stamped by `ServerRecv::default()`. -/
def initGameState (st : ClientCore) (now : Nat) : ClientCore :=
  { st with recv_window_start := 0,
            recv_window := List.replicate 128 { RecvSlot.default with resend_time := now },
            send_queue := List.replicate 128 { SendSlot.default with time := now } }

/-- `Client::parse_game_start`.  Note that the source checks no state:
the transition fires in whatever state the client is.  `player_classes`
is indexed at `consoleplayer as usize`, in bounds whenever validation
passed (`getD` is then exact). -/
def parseGameStart (st : ClientCore) (pkt : Packet) (now : Nat) : RRes ClientCore :=
  match (readSettings pkt).1 with
  | RRes.ok s =>
      if validateGameSettings st.drone s then
        let st1 := initGameState { st with state := CState.InGame, settings := some s } now
        RRes.ok { st1 with lowres_turn := s.lowres_turn,
                           player_class := s.player_classes.getD (usizeCast s.consoleplayer) 0 }
      else RRes.ok st
  | RRes.fail => RRes.ok st
  | RRes.panicked => RRes.panicked

/-! ## Receive-window engine (src/net/client.rs) -/

/-- `Client::expand_tic_num`: expand a wire byte `b` against the window
start `w` (both `u32`).  `!0xff = 0xffffff00 = 4294967040`; the
corrections use `wrapping_sub` / `wrapping_add`. -/
def expandTicNum (w b : Nat) : Nat :=
  let l := w &&& 255
  let h := w &&& 4294967040
  let r0 := h ||| b
  let r1 := if l < 64 ∧ 176 < b then (r0 + 4294967296 - 256) % 4294967296 else r0
  let r2 := if 176 < l ∧ b < 64 then (r1 + 256) % 4294967296 else r1
  r2

/-- `Client::store_received_tic`.  `(seq - recv_window_start) as usize`
wraps; the slot is overwritten whenever the index is below `BACKUPTICS`,
whether or not it was already active.  `update_clock_sync` writes only
omitted fields (PID / `last_latency`). -/
def storeReceivedTic (st : ClientCore) (seq : Nat) (cmd : FullTicCmd) : ClientCore :=
  let index := u32sub seq st.recv_window_start
  if index < 128 then
    match st.recv_window.get? index with
    | some slot =>
        { st with recv_window := st.recv_window.set index { slot with active := true, cmd := cmd } }
    | none => st
  else st

/-- `Client::send_resend_request`: emit a `GameDataResend` for
`[start, endv]` and stamp `resend_time := now` on every covered
in-window slot.  The emitted range is returned alongside the state. -/
def stampSlots (w now : Nat) : List RecvSlot → Nat → Nat → List RecvSlot
  | win, _, 0 => win
  | win, i, n + 1 =>
      let index := u32sub i w
      let win2 :=
        if index < 128 then
          match win.get? index with
          | some slot => win.set index { slot with resend_time := now }
          | none => win
        else win
      stampSlots w now win2 (u32add i 1) n

def sendResendRequest (st : ClientCore) (now start endv : Nat) : ClientCore × (Nat × Nat) :=
  ({ st with recv_window := stampSlots st.recv_window_start now st.recv_window start (endv + 1 - start) },
   (start, endv))

/-- The scan of `check_for_missing_tics`:
`while resend_start >= 0 && !recv_window[resend_start].active` — the
index is evaluated before `active`, so `resend_start ≥ 128` is a panic
on the length-128 window. -/
def findActiveBelow (win : List RecvSlot) : Nat → RRes Int
  | 0 =>
      match win.get? 0 with
      | none => RRes.panicked
      | some s => if s.active then RRes.ok 0 else RRes.ok (-1)
  | Nat.succ k2 =>
      match win.get? (k2 + 1) with
      | none => RRes.panicked
      | some s => if s.active then RRes.ok ((k2 : Int) + 1) else findActiveBelow win k2

/-- `Client::check_for_missing_tics`. -/
def checkForMissingTics (st : ClientCore) (now seq : Nat) :
    RRes (ClientCore × Option (Nat × Nat)) :=
  let resendEnd : Int := i32wrap (toI32 seq - toI32 st.recv_window_start)
  if 0 < resendEnd then
    match findActiveBelow st.recv_window (resendEnd - 1).toNat with
    | RRes.ok resendStart =>
        if resendStart < resendEnd - 1 then
          let start := u32add (u32add st.recv_window_start (u32OfInt resendStart)) 1
          let endv := u32sub (u32add st.recv_window_start (u32OfInt resendEnd)) 1
          let r := sendResendRequest st now start endv
          RRes.ok (r.1, some r.2)
        else RRes.ok (st, none)
    | _ => RRes.panicked
  else RRes.ok (st, none)

/-- The tic loop of `parse_game_data`: for each of `num_tics` commands,
a successful `read_full_ticcmd` is stored; a short read stores nothing
but the loop continues with the advanced cursor, as in the source.
(The reader primitives never panic.) -/
def gameDataLoop (lowres : Bool) (seq : Nat) : Nat → Nat → ClientCore → Packet →
    ClientCore × Packet
  | 0, _, st, p => (st, p)
  | n + 1, i, st, p =>
      match readFullTiccmd lowres p with
      | (RRes.ok cmd, p2) => gameDataLoop lowres seq n (i + 1) (storeReceivedTic st (u32add seq i) cmd) p2
      | (_, p2) => gameDataLoop lowres seq n (i + 1) st p2

/-- `Client::parse_game_data`.  Returns the updated client and the
resend range requested by `check_for_missing_tics`, if any.  The final
`send_game_data_ack` clears `need_acknowledge`. -/
def parseGameData (st : ClientCore) (pkt : Packet) (now : Nat) :
    RRes (ClientCore × Option (Nat × Nat)) :=
  match readU8 pkt with
  | (RRes.ok seqByte, p1) =>
      match readU8 p1 with
      | (RRes.ok numTics, p2) =>
          let seq := expandTicNum st.recv_window_start seqByte
          let lowres := (st.settings.map (fun s => decide (s.lowres_turn ≠ 0))).getD false
          let r := gameDataLoop lowres seq numTics 0 st p2
          let st3 := { r.1 with need_acknowledge := true, gamedata_recv_time := now }
          match checkForMissingTics st3 now seq with
          | RRes.ok (st4, req) => RRes.ok ({ st4 with need_acknowledge := false }, req)
          | _ => RRes.panicked
      | (_, _) => RRes.ok (st, none)
  | (_, _) => RRes.ok (st, none)

/-! ## Resend scan (src/net/client.rs, `check_resends`) -/

/-- The slot scan of `Client::check_resends`.  `rs`/`re` are the running
`resend_start`/`resend_end` (`i32`, −1 when no run is open).  The branch
guarded by `maybe_deadlocked` binds an unused local
(`let _need_resend = true;`) and therefore has no effect; it is modelled
faithfully by its absence.  A single `now` stands for all the `Instant`
reads inside the call. -/
def checkResendsLoop (now : Nat) : Nat → Nat → Int → Int → ClientCore →
    ClientCore × List (Nat × Nat)
  | 0, _, rs, re, st =>
      if 0 ≤ rs then
        let r := sendResendRequest st now
          (u32add st.recv_window_start (u32OfInt rs))
          (u32add st.recv_window_start (u32OfInt re))
        (r.1, [r.2])
      else (st, [])
  | n + 1, i, rs, re, st =>
      let slot := st.recv_window.getD i RecvSlot.default
      let needResend := !slot.active && decide (300 < now - slot.resend_time)
      if needResend then
        checkResendsLoop now n (i + 1) (if rs < 0 then (i : Int) else rs) (i : Int) st
      else
        if 0 ≤ rs then
          let r := sendResendRequest st now
            (u32add st.recv_window_start (u32OfInt rs))
            (u32add st.recv_window_start (u32OfInt re))
          let rest := checkResendsLoop now n (i + 1) (-1) re r.1
          (rest.1, r.2 :: rest.2)
        else checkResendsLoop now n (i + 1) rs re st

/-- `Client::check_resends`: scan all 128 slots, then send the pending
ack if game data is more than 200 ms old.  Returns the client, the
emitted resend ranges, and whether an ack went out. -/
def checkResends (st : ClientCore) (now : Nat) : ClientCore × List (Nat × Nat) × Bool :=
  let r := checkResendsLoop now 128 0 (-1) (-1) st
  if r.1.need_acknowledge && decide (200 < now - r.1.gamedata_recv_time) then
    ({ r.1 with need_acknowledge := false }, r.2, true)
  else (r.1, r.2, false)

/-! ## Window advancement (src/net/client.rs, `expand_full_ticcmd`) -/

/-- `Client::expand_full_ticcmd` for a client whose console player index
is `cp` (`settings.map_or(0, |s| s.consoleplayer as usize)` at the call
site).  The source loop writes `ticcmds[i]` and the baseline copy
independently per index; it is rendered as two per-index maps.  The
local player (`i == cp && !drone`) is skipped entirely. -/
def expandFullTiccmd (cp : Nat) (drone : Bool) (base : List TicCmd) (cmd : FullTicCmd) :
    List TicCmd × List TicCmd :=
  let upd : Nat → TicCmd := fun i =>
    applyTiccmdDiff (base.getD i TicCmd.default) (cmd.cmds.getD i TicDiff.default)
  let ticcmds := (List.range 8).map (fun i =>
    if i = cp ∧ drone = false then TicCmd.default
    else if cmd.playeringame.getD i false then upd i
    else TicCmd.default)
  let base2 := (List.range 8).map (fun i =>
    if i = cp ∧ drone = false then base.getD i TicCmd.default
    else if cmd.playeringame.getD i false then upd i
    else base.getD i TicCmd.default)
  (ticcmds, base2)

/-! ## Loop driver wait loop (src/game.rs, `Game::tick`) -/

/-- `Game::players_in_game`. -/
def playersInGame (connected drone : Bool) (ingame : List Bool) : Bool :=
  if connected then ingame.any id else !drone

/-- What one `net_update` + `client.run()` inside the wait loop may
change, observed by the loop: the adjusted wall time, the new `maketic`
(only `build_new_tic` writes it) and the connection flag (a received
`Disconnect` clears it).  `recvtic`, `gametic`, `counts` and
`local_playeringame` are not written anywhere in the loop. -/
structure WaitEnv where
  time : Nat
  maketic : Int
  connected : Bool
deriving DecidableEq

/-- Outcome of the wait loop of `Game::tick`. -/
inductive WaitOutcome where
  | exited
  | stalled
  | panicked
  | spun
deriving DecidableEq

/-- The wait loop of `Game::tick`:

`while !players_in_game() || lowtic < gametic/ticdup + counts { … }`

with the body running `net_update`, recomputing `lowtic = get_low_tic()`,
panicking when `lowtic < gametic/ticdup`, and — only when
`lowtic < gametic/ticdup + counts` — returning on the stall bound
`get_adjusted_time()/ticdup − enter_tic ≥ MAX_NETGAME_STALL_TICS (= 2)`
(a wrapping `u32` subtraction) or sleeping 1 ms.  `fuel` bounds the
number of iterations modelled; `spun` means the guard was still true
when fuel ran out.  Rust `i32` division truncates (`Int.tdiv`). -/
def waitLoop (gametic ticdup counts entertic recvtic : Int) (drone : Bool)
    (ingame : List Bool) (env : Nat → WaitEnv) :
    Nat → Nat → Int → Bool → WaitOutcome
  | 0, _, _, _ => WaitOutcome.spun
  | fuel + 1, k, lowtic, connected =>
      if !playersInGame connected drone ingame
          || decide (lowtic < gametic.tdiv ticdup + counts) then
        let e := env k
        let lowtic2 := if recvtic < e.maketic then recvtic else e.maketic
        if lowtic2 < gametic.tdiv ticdup then WaitOutcome.panicked
        else if lowtic2 < gametic.tdiv ticdup + counts then
          if 2 ≤ u32sub (e.time / u32OfInt ticdup) (u32OfInt entertic) then WaitOutcome.stalled
          else waitLoop gametic ticdup counts entertic recvtic drone ingame env fuel (k + 1) lowtic2 e.connected
        else waitLoop gametic ticdup counts entertic recvtic drone ingame env fuel (k + 1) lowtic2 e.connected
      else WaitOutcome.exited

/-! ## Concrete states and packets used as inputs below -/

/-- A freshly initialised in-game client: window start 0, both windows
default (all slots inactive), no settings yet. -/
def stInit : ClientCore :=
  { state := CState.InGame, drone := true, settings := none,
    recv_window_start := 0, recv_window := List.replicate 128 RecvSlot.default,
    send_queue := List.replicate 128 SendSlot.default,
    need_acknowledge := false, gamedata_recv_time := 0,
    net_client_wait_data := WaitData.default, net_client_received_wait_data := false,
    max_players := 0, is_freedoom := 0, lowres_turn := 0, player_class := 0 }

/-- Settings whose only nonzero fields are `ticdup = 1` and
`timelimit = 1`. -/
def settingsTL : GameSettings :=
  ⟨1, 0, 0, 0, 0, 0, 0, 0, 0, 0, 0, 0, 1, 0, 0, 0, 0, List.replicate 8 0⟩

/-- Round trip of one tic-command through diff → encode → decode →
apply, against baseline `last` (the pipeline of `send_ticcmd` on one
side and `parse_game_data` on the other). -/
def ticdiffRoundtrip (last c : TicCmd) (lowres : Bool) : Option TicCmd :=
  match readTiccmdDiff lowres { data := writeTiccmdDiff (calculateTiccmdDiff last c) lowres, pos := 0 } with
  | (RRes.ok d, _) => some (applyTiccmdDiff last d)
  | _ => none

/-- A tic command that only turns: `angleturn = 1`. -/
def turnCmd : TicCmd := { TicCmd.default with angleturn := 1 }

/-- A `GameStart` payload: all settings bytes zero except
`num_players = 1`, `consoleplayer = 0`, one class byte. -/
def pkt4 : Packet := { data := [0, 0, 0, 0, 0, 0, 0, 0, 0, 0, 0, 0, 0, 0, 0, 0, 0, 0, 1, 0, 0], pos := 0 }

/-- The settings `pkt4` decodes to. -/
def s4 : GameSettings := ⟨0, 0, 0, 0, 0, 0, 0, 0, 0, 0, 0, 0, 0, 0, 0, 1, 0, List.replicate 8 0⟩

/-- `pkt4` after `read_settings` (cursor past the 21 payload bytes). -/
def p24 : Packet := { data := pkt4.data, pos := 21 }

/-- A non-drone client sitting in `Connected` — not `WaitingStart`. -/
def st4 : ClientCore := { stInit with state := CState.Connected, drone := false }

/-- Two distinct aggregated tic commands. -/
def cmdA : FullTicCmd := FullTicCmd.default

def cmdB : FullTicCmd := { FullTicCmd.default with latency := 7 }

/-- A client whose receive-window slot 0 is already active holding
`cmdA`. -/
def stC6 : ClientCore :=
  { stInit with recv_window :=
      { RecvSlot.default with active := true, cmd := cmdA } :: List.replicate 127 RecvSlot.default }

/-- A `WaitingData` payload: `num_players = 3`, `num_drones = 0`,
`ready_players = 0`, `max_players = 3`, `is_controller = 0`,
`consoleplayer = 2`, three empty name/address pairs, two zero SHA-1
digests, `is_freedoom = 0`. -/
def pkt7 : Packet :=
  { data := [3, 0, 0, 3, 0, 2] ++ [0, 0, 0, 0, 0, 0]
      ++ List.replicate 20 0 ++ List.replicate 20 0 ++ [0], pos := 0 }

/-- The wait data `pkt7` decodes to. -/
def wd7 : WaitData :=
  ⟨3, 0, 0, 3, 0, 2,
   List.replicate 8 (List.replicate 30 0), List.replicate 8 (List.replicate 30 0),
   List.replicate 20 0, List.replicate 20 0, 0⟩

/-- A drone client in the lobby. -/
def st7 : ClientCore := { stInit with drone := true }

/-- A client with every receive slot inactive and stale
(`resend_time = 0`, `gamedata_recv_time = 0`). -/
def st8 : ClientCore := stInit

/-- Inputs for the wait-loop witness: one in-game player. -/
def base10 : List TicCmd := List.replicate 8 TicCmd.default

def cmd10 : FullTicCmd :=
  { latency := 0,
    playeringame := [true, true, false, false, false, false, false, false],
    cmds := List.replicate 8 TicDiff.default }

/-! ## Helper lemmas -/

/-- Masking with the low byte is reduction mod 256. -/
theorem land_255_eq_mod (w : Nat) : w &&& 255 = w % 256 := by
  have h : (255 : Nat) = 2 ^ 8 - 1 := by norm_num
  rw [h, Nat.and_pow_two_sub_one_eq_mod]

/-- Masking a 32-bit value with `!0xff` clears the low byte. -/
theorem land_hi_eq (w : Nat) (hw : w < 4294967296) : w &&& 4294967040 = 256 * (w / 256) := by
  apply Nat.eq_of_testBit_eq
  intro i
  have hm : (4294967040 : Nat) = (2 ^ 24 - 1) <<< 8 := by norm_num [Nat.shiftLeft_eq]
  have h256 : 256 * (w / 256) = (w >>> 8) <<< 8 := by
    simp [Nat.shiftLeft_eq, Nat.shiftRight_eq_div_pow]
    ring
  rw [hm, Nat.testBit_and, h256, Nat.testBit_shiftLeft, Nat.testBit_shiftLeft,
    Nat.testBit_shiftRight, Nat.testBit_two_pow_sub_one]
  by_cases h8 : 8 ≤ i
  · by_cases h32 : i < 32
    · simp [h8, show i - 8 < 24 by omega, show 8 + (i - 8) = i by omega]
    · have h2 : (4294967296 : Nat) = 2 ^ 32 := by norm_num
      have hwi : w.testBit i = false :=
        Nat.testBit_lt_two_pow
          (lt_of_lt_of_le (h2 ▸ hw) (Nat.pow_le_pow_right (by norm_num) (by omega)))
      simp [h8, hwi, show ¬(i - 8 < 24) by omega]
  · simp [h8]

/-- Or-ing a multiple of 256 with a byte is addition. -/
theorem lor_low_byte (q b : Nat) (hb : b < 256) : (256 * q) ||| b = 256 * q + b := by
  have h := @Nat.mul_add_lt_is_or 8 b (by omega) q
  norm_num at h
  exact h.symm

/-- Reading index `i < 8` out of a map over `List.range 8`. -/
theorem getD_map_range8 {α : Type} (f : Nat → α) (i : Nat) (d : α) (hi : i < 8) :
    ((List.range 8).map f).getD i d = f i := by
  rw [List.getD_eq_get?, List.get?_map, List.get?_range hi]
  rfl

/-! ## C1 — parse_packet safety on arbitrary datagrams -/

/-- C1: the claim fails on the code.  On a fresh in-game client
(`recv_window_start = 0`, every slot inactive) the two-byte `GameData`
payload `[0xb0, 0x00]` (seq byte 176, `num_tics` 0) drives
`check_for_missing_tics` to probe `recv_window[175]`, out of bounds for
the length-128 window: `parse_game_data` panics on network input, and
the probed index 175 violates `0 ≤ idx < BACKUPTICS = 128`. -/
theorem parse_game_data_panics_on_far_seq :
    parseGameData stInit { data := [176, 0], pos := 0 } 0 = RRes.panicked ∧
    expandTicNum 0 176 = 176 ∧
    findActiveBelow (List.replicate 128 RecvSlot.default) 175 = RRes.panicked ∧
    128 ≤ 175 := by
  refine ⟨by decide, by decide, by decide, by decide⟩

/-! ## C2 — settings round trip -/

/-- C2: the claim fails on the code.  `write_settings` emits `timelimit`
little-endian but `read_u32` decodes big-endian, so the round trip
byte-swaps `timelimit`: encoding settings with `timelimit = 1` decodes
to `timelimit = 16777216 = 0x01000000`.  Every other field of this
valid-range value survives. -/
theorem settings_roundtrip_swaps_timelimit :
    (readSettings { data := writeSettings settingsTL, pos := 0 }).1
      = RRes.ok { settingsTL with timelimit := 16777216 } ∧
    settingsTL.timelimit = 1 := by
  refine ⟨by decide, by decide⟩

/-! ## C3 — tic-command diff round trip -/

/-- C3: the claim fails on the code.  `write_ticcmd_diff` emits
`angleturn` little-endian but `read_i16` decodes big-endian, so with
`last = default` and `c = default with angleturn = 1` (and
`lowres_turn = false`) the diff → encode → decode → apply pipeline
reconstructs `angleturn = 256`, not 1. -/
theorem ticcmd_diff_roundtrip_swaps_angleturn :
    ticdiffRoundtrip TicCmd.default turnCmd false = some { turnCmd with angleturn := 256 } ∧
    turnCmd.angleturn = 1 := by
  refine ⟨by decide, by decide⟩

/-! ## C5 — sequence-number expansion -/

/-- C5 counterexample: at window start `W = 0` (which lies in the
claimed range `[0, 2^31)`) and byte `b = 255`, `expand_tic_num` wraps
around the `u32` range: the result is `2^32 - 1`, at distance far more
than 192 from `W`. -/
theorem expand_tic_num_wraps_below_window :
    expandTicNum 0 255 = 4294967295 ∧ 0 + 192 < expandTicNum 0 255 := by
  refine ⟨by decide, by decide⟩

/-- C5 (amended: window starts `0x40 ≤ W < 2^31`; for `W < 0x40` the
backward correction wraps below zero, see the counterexample): the
expansion is congruent to `b` mod 256, lies within 192 of `W`, and does
not wrap around the `u32` range. -/
theorem expand_tic_num_in_window (w b : Nat) (h64 : 64 ≤ w) (hw : w < 2147483648)
    (hb : b < 256) :
    expandTicNum w b % 256 = b ∧
    expandTicNum w b ≤ w + 192 ∧ w ≤ expandTicNum w b + 192 ∧
    expandTicNum w b < 4294967296 := by
  have hl : w &&& 255 = w % 256 := land_255_eq_mod w
  have hh : w &&& 4294967040 = 256 * (w / 256) := land_hi_eq w (by omega)
  have hr : (256 * (w / 256)) ||| b = 256 * (w / 256) + b := lor_low_byte _ b hb
  simp only [expandTicNum, hl, hh, hr]
  split_ifs with h1 h2 h2 <;> omega

/-- C5 witness: `W = 100`, `b = 10`. -/
theorem expand_tic_num_in_window_witness :
    expandTicNum 100 10 % 256 = 10 ∧
    expandTicNum 100 10 ≤ 100 + 192 ∧ 100 ≤ expandTicNum 100 10 + 192 ∧
    expandTicNum 100 10 < 4294967296 :=
  expand_tic_num_in_window 100 10 (by decide) (by decide) (by decide)

/-! ## C4 — GameStart transition -/

/-- C4 counterexample: the source checks no state, so a valid
`GameStart` moves even a `Connected` (not `WaitingStart`) client to
`InGame`. -/
theorem parse_game_start_fires_outside_waiting_start :
    st4.state = CState.Connected ∧
    parseGameStart st4 pkt4 3 =
      RRes.ok { initGameState { st4 with state := CState.InGame, settings := some s4 } 3 with
                lowres_turn := s4.lowres_turn,
                player_class := s4.player_classes.getD (usizeCast s4.consoleplayer) 0 } := by
  refine ⟨by decide, by decide⟩

/-- C4 (amended: the transition fires in every state, not only
`WaitingStart`, and validation accepts exactly the non-drone clients
with `0 ≤ consoleplayer < num_players ≤ NET_MAXPLAYERS` — a drone never
passes, because `consoleplayer as usize` of −1 exceeds `num_players`):
a received GameStart moves the client to `InGame` with
`recv_window_start` reset to 0 and both windows cleared iff the decoded
settings pass validation; on a short read or failed validation the
client is unchanged. -/
theorem parse_game_start_characterization (st : ClientCore) (pkt : Packet) (now : Nat) :
    (∀ s p2, readSettings pkt = (RRes.ok s, p2) →
      (validateGameSettings st.drone s = true →
        parseGameStart st pkt now =
          RRes.ok { initGameState { st with state := CState.InGame, settings := some s } now with
                    lowres_turn := s.lowres_turn,
                    player_class := s.player_classes.getD (usizeCast s.consoleplayer) 0 }) ∧
      (validateGameSettings st.drone s = false → parseGameStart st pkt now = RRes.ok st)) ∧
    (∀ p2, readSettings pkt = (RRes.fail, p2) → parseGameStart st pkt now = RRes.ok st) ∧
    (∀ s : GameSettings, 0 ≤ s.num_players → s.num_players < 256 →
      -128 ≤ s.consoleplayer → s.consoleplayer < 128 →
      (validateGameSettings st.drone s = true ↔
        (st.drone = false ∧ 0 ≤ s.consoleplayer ∧ s.consoleplayer < s.num_players ∧
         s.num_players ≤ 8))) := by
  refine ⟨?_, ?_, ?_⟩
  · intro s p2 h
    have h1 : (readSettings pkt).1 = RRes.ok s := by rw [h]
    constructor
    · intro hv
      simp [parseGameStart, h1, hv]
    · intro hv
      simp [parseGameStart, h1, hv]
  · intro p2 h
    have h1 : (readSettings pkt).1 = RRes.fail := by rw [h]
    simp [parseGameStart, h1]
  · intro s hnp0 hnp1 hcp0 hcp1
    cases hd : st.drone <;> simp [validateGameSettings, usizeCast] <;> omega

/-- C4 witness: the characterization applied to the concrete `Connected`
client and valid packet of the counterexample. -/
theorem parse_game_start_characterization_witness :
    parseGameStart st4 pkt4 3 =
      RRes.ok { initGameState { st4 with state := CState.InGame, settings := some s4 } 3 with
                lowres_turn := s4.lowres_turn,
                player_class := s4.player_classes.getD (usizeCast s4.consoleplayer) 0 } :=
  ((parse_game_start_characterization st4 pkt4 3).1 s4 p24 (by decide)).1 (by decide)

/-! ## C6 — duplicate handling at window-store time -/

/-- C6 counterexample: slot 0 of `stC6` is already active holding
`cmdA`, yet `store_received_tic` of a different `cmdB` at the same
sequence number replaces the stored command — the store is not guarded
by the slot's `active` flag. -/
theorem store_received_tic_overwrites_active_slot :
    (stC6.recv_window.getD 0 RecvSlot.default).active = true ∧
    (stC6.recv_window.getD 0 RecvSlot.default).cmd = cmdA ∧
    cmdA ≠ cmdB ∧
    ((storeReceivedTic stC6 0 cmdB).recv_window.getD 0 RecvSlot.default).cmd = cmdB := by
  refine ⟨by decide, by decide, by decide, by decide⟩

/-- C6 (amended: the store happens whenever `0 ≤ idx < BACKUPTICS`,
active or not, overwriting the slot's command — a duplicate delivery is
harmless only because re-storing identical content leaves the slot's
value unchanged): in range the slot becomes `{active := true, cmd}` and
nothing else changes; out of range the client is untouched. -/
theorem store_received_tic_unconditional_store (st : ClientCore) (seq : Nat) (cmd : FullTicCmd) :
    (∀ slot, u32sub seq st.recv_window_start < 128 →
      st.recv_window.get? (u32sub seq st.recv_window_start) = some slot →
      storeReceivedTic st seq cmd =
        { st with recv_window :=
            (st.recv_window.set (u32sub seq st.recv_window_start)
              ({ slot with active := true, cmd := cmd })) }) ∧
    (128 ≤ u32sub seq st.recv_window_start → storeReceivedTic st seq cmd = st) := by
  constructor
  · intro slot hlt hget
    have hget2 : st.recv_window[u32sub seq st.recv_window_start]? = some slot := by
      rw [← List.get?_eq_getElem?]
      exact hget
    simp [storeReceivedTic, hlt, hget2]
  · intro hge
    simp [storeReceivedTic, Nat.not_lt.2 hge]

/-- C6 witness: the in-range branch applied to the concrete client of
the counterexample (slot 0 active with `cmdA`, storing `cmdB`). -/
theorem store_received_tic_unconditional_store_witness :
    storeReceivedTic stC6 0 cmdB =
      { stC6 with recv_window :=
          (stC6.recv_window.set (u32sub 0 stC6.recv_window_start)
            ({ ({ RecvSlot.default with active := true, cmd := cmdA }) with
               active := true, cmd := cmdB })) } :=
  (store_received_tic_unconditional_store stC6 0 cmdB).1
    { RecvSlot.default with active := true, cmd := cmdA } (by decide) (by decide)

/-! ## C8 helper: an open resend run is always flushed -/

/-- Once the scan of `check_resends` has an open run starting at
`resend_start = rs ≥ 0`, some emitted request starts exactly at
`recv_window_start + rs`. -/
theorem checkResendsLoop_emits (now : Nat) :
    ∀ (n i : Nat) (rs re : Int) (st : ClientCore), 0 ≤ rs → 0 ≤ re → re ≤ 127 →
      i + n ≤ 128 →
      ∃ re2 : Int, 0 ≤ re2 ∧ re2 ≤ 127 ∧
        (u32add st.recv_window_start (u32OfInt rs), u32add st.recv_window_start (u32OfInt re2))
          ∈ (checkResendsLoop now n i rs re st).2 := by
  intro n
  induction n with
  | zero =>
      intro i rs re st hrs hre hre127 hio
      refine ⟨re, hre, hre127, ?_⟩
      simp [checkResendsLoop, hrs, sendResendRequest]
  | succ m ih =>
      intro i rs re st hrs hre hre127 hio
      simp only [checkResendsLoop]
      by_cases hnr : (!(st.recv_window.getD i RecvSlot.default).active &&
          decide (300 < now - (st.recv_window.getD i RecvSlot.default).resend_time)) = true
      · rw [if_pos hnr]
        have hrw : (if rs < 0 then (i : Int) else rs) = rs := by
          rw [if_neg]
          omega
        rw [hrw]
        exact ih (i + 1) rs (i : Int) st hrs (by omega) (by omega) (by omega)
      · rw [if_neg hnr, if_pos hrs]
        refine ⟨re, hre, hre127, ?_⟩
        exact List.mem_cons_self _ _

/-! ## C7 — WaitingData validation -/

/-- C7 counterexample: a drone client accepts and stores wait data with
`consoleplayer = 2 ≥ 0` (and `num_players = 3`), because
`validate_wait_data`'s third disjunct
`(consoleplayer as usize) < num_players as usize` bypasses the drone
sign rule the claim states. -/
theorem parse_waiting_data_accepts_inrange_drone :
    st7.drone = true ∧ wd7.consoleplayer = 2 ∧
    parseWaitingData st7 pkt7 =
      RRes.ok { st7 with net_client_wait_data := wd7, net_client_received_wait_data := true,
                         max_players := wd7.max_players, is_freedoom := wd7.is_freedoom } := by
  refine ⟨by decide, by decide, by decide⟩

/-- C7 (amended: the sign rule is weakened by a third disjunct — the
packet is also accepted whenever `0 ≤ consoleplayer < num_players`,
regardless of the drone flag): `parse_waiting_data` stores the decoded
`WaitData` and sets the received flag iff `num_players ≤ max_players`,
`ready_players ≤ num_players`, `max_players ≤ NET_MAXPLAYERS` and
(`consoleplayer ≥ 0` for a non-drone, or `consoleplayer < 0` for a
drone, or `0 ≤ consoleplayer < num_players`); otherwise every client
field is unchanged. -/
theorem parse_waiting_data_characterization (st : ClientCore) (pkt : Packet) :
    (∀ wd p2, readWaitData pkt = (RRes.ok wd, p2) →
      (validateWaitData st.drone wd = true →
        parseWaitingData st pkt =
          RRes.ok { st with net_client_wait_data := wd, net_client_received_wait_data := true,
                            max_players := wd.max_players, is_freedoom := wd.is_freedoom }) ∧
      (validateWaitData st.drone wd = false → parseWaitingData st pkt = RRes.ok st)) ∧
    (∀ p2, readWaitData pkt = (RRes.fail, p2) → parseWaitingData st pkt = RRes.ok st) ∧
    (∀ wd : WaitData, -128 ≤ wd.consoleplayer → wd.consoleplayer < 128 →
      0 ≤ wd.num_players → wd.num_players < 256 →
      (validateWaitData st.drone wd = true ↔
        (wd.num_players ≤ wd.max_players ∧ wd.ready_players ≤ wd.num_players ∧
         wd.max_players ≤ 8 ∧
         ((0 ≤ wd.consoleplayer ∧ st.drone = false) ∨
          (wd.consoleplayer < 0 ∧ st.drone = true) ∨
          (0 ≤ wd.consoleplayer ∧ wd.consoleplayer < wd.num_players))))) := by
  refine ⟨?_, ?_, ?_⟩
  · intro wd p2 h
    have h1 : (readWaitData pkt).1 = RRes.ok wd := by rw [h]
    constructor
    · intro hv
      simp [parseWaitingData, h1, hv]
    · intro hv
      simp [parseWaitingData, h1, hv]
  · intro p2 h
    have h1 : (readWaitData pkt).1 = RRes.fail := by rw [h]
    simp [parseWaitingData, h1]
  · intro wd hcp0 hcp1 hnp0 hnp1
    cases hd : st.drone <;> simp [validateWaitData, usizeCast] <;> omega

/-- C7 witness: the characterization applied to the concrete drone
client and packet of the counterexample. -/
theorem parse_waiting_data_characterization_witness :
    parseWaitingData st7 pkt7 =
      RRes.ok { st7 with net_client_wait_data := wd7, net_client_received_wait_data := true,
                         max_players := wd7.max_players, is_freedoom := wd7.is_freedoom } :=
  ((parse_waiting_data_characterization st7 pkt7).1 wd7 { data := pkt7.data, pos := 53 }
    (by decide)).1 (by decide)

/-- One step of the resend scan with no open run, at a slot needing
resend: the run opens at that slot. -/
theorem checkResendsLoop_succ_open (now : Nat) (m i : Nat) (st : ClientCore)
    (h : (!(st.recv_window.getD i RecvSlot.default).active &&
        decide (300 < now - (st.recv_window.getD i RecvSlot.default).resend_time)) = true) :
    checkResendsLoop now (m + 1) i (-1) (-1) st
      = checkResendsLoop now m (i + 1) (i : Int) (i : Int) st := by
  simp only [checkResendsLoop]
  rw [if_pos h]
  norm_num

/-! ## C8 — forced resend when the head of the window is stale -/

/-- C8: if, when `check_resends` runs, slot 0 is inactive, its
`resend_time` is more than 1 s old, and no game data has arrived for
more than 1 s, then a `GameDataResend` whose range includes
`recv_window_start` is sent during that call (its start is exactly
`recv_window_start`).  A 1 s-old `resend_time` in particular passes the
normal 300 ms test, so the scan opens a run at slot 0 and must flush
it.  (`recv_window_start < 2^31` is the spec's window-start range.) -/
theorem check_resends_covers_window_start (st : ClientCore) (now : Nat)
    (hW : st.recv_window_start < 2147483648)
    (slot0 : RecvSlot) (h0 : st.recv_window.getD 0 RecvSlot.default = slot0)
    (hact : slot0.active = false)
    (hold : 1000 < now - slot0.resend_time)
    (hdead : 1000 < now - st.gamedata_recv_time) :
    ∃ e, (st.recv_window_start, e) ∈ (checkResends st now).2.1 ∧ st.recv_window_start ≤ e := by
  have hlist : (checkResends st now).2.1 = (checkResendsLoop now 128 0 (-1) (-1) st).2 := by
    simp only [checkResends]
    split <;> rfl
  have hnr : (!(st.recv_window.getD 0 RecvSlot.default).active &&
      decide (300 < now - (st.recv_window.getD 0 RecvSlot.default).resend_time)) = true := by
    rw [h0, hact]
    simp only [Bool.not_false, Bool.true_and, decide_eq_true_eq]
    omega
  have hstep : checkResendsLoop now 128 0 (-1) (-1) st = checkResendsLoop now 127 1 0 0 st := by
    have h128 : (128 : Nat) = 127 + 1 := by norm_num
    rw [h128]
    exact checkResendsLoop_succ_open now 127 0 st hnr
  obtain ⟨re2, hre0, hre127, hmem⟩ :=
    checkResendsLoop_emits now 127 1 0 0 st (by omega) (by omega) (by omega) (by omega)
  have h1 : u32OfInt re2 = re2.toNat := by
    unfold u32OfInt
    rw [Int.emod_eq_of_lt hre0 (by omega)]
  have hzero : u32add st.recv_window_start (u32OfInt 0) = st.recv_window_start := by
    have hz : u32OfInt 0 = 0 := rfl
    rw [hz]
    unfold u32add
    rw [Nat.add_zero]
    exact Nat.mod_eq_of_lt (show st.recv_window_start < 4294967296 by omega)
  refine ⟨u32add st.recv_window_start (u32OfInt re2), ?_, ?_⟩
  · rw [hlist, hstep]
    rw [hzero] at hmem
    exact hmem
  · simp only [u32add, h1]
    have hlt : st.recv_window_start + re2.toNat < 4294967296 := by omega
    rw [Nat.mod_eq_of_lt hlt]
    omega

/-- C8 witness: the fresh stale client `st8` at `now = 2000` ms. -/
theorem check_resends_covers_window_start_witness :
    ∃ e, (st8.recv_window_start, e) ∈ (checkResends st8 2000).2.1 ∧ st8.recv_window_start ≤ e :=
  check_resends_covers_window_start st8 2000 (by decide) RecvSlot.default (by decide)
    (by decide) (by decide) (by decide)

/-! ## C9 — the wait loop of Game::tick -/

set_option maxRecDepth 100000 in
/-- C9 counterexample: with the receive window already full
(`lowtic = 2 ≥ gametic/ticdup + counts = 2`) but `players_in_game`
false (connected, all `local_playeringame` flags clear — the state
before the first consumed tic), the wait-loop guard stays true while
the inner `lowtic < gametic/ticdup + counts` test stays false, so the
stall check is never reached: 1000 iterations later the loop is still
spinning although the observed wall clock is far past the 2-tic stall
bound. -/
theorem tick_wait_loop_spins_without_players :
    waitLoop 0 1 2 0 2 false (List.replicate 8 false) (fun _ => ⟨1000000, 2, true⟩)
        1000 0 2 true = WaitOutcome.spun ∧
    2 ≤ u32sub (1000000 / u32OfInt 1) (u32OfInt 0) := by
  refine ⟨by decide, by decide⟩

/-- C9 (amended: the 2-tic stall bound holds only while
`players_in_game(client)` is true; with it false and the window full
the loop spins forever, see the counterexample): if `players_in_game`
is true on entry and after every `net_update`, and every observed
adjusted time is at least `MAX_NETGAME_STALL_TICS = 2` tics past
`enter_tic`, the wait loop leaves within two iterations — it exits,
returns on the stall check, or dies on the `lowtic < gametic` panic; it
never spins on. -/
theorem wait_loop_exits_with_players (gametic ticdup counts entertic recvtic : Int)
    (drone : Bool) (ingame : List Bool) (env : Nat → WaitEnv)
    (k : Nat) (lowtic : Int) (connected : Bool)
    (hpl : ∀ j, playersInGame (env j).connected drone ingame = true)
    (hstall : ∀ j, 2 ≤ u32sub ((env j).time / u32OfInt ticdup) (u32OfInt entertic)) :
    waitLoop gametic ticdup counts entertic recvtic drone ingame env 2 k lowtic connected
      ≠ WaitOutcome.spun := by
  simp only [waitLoop]
  by_cases hg : (!playersInGame connected drone ingame
      || decide (lowtic < gametic.tdiv ticdup + counts)) = true
  · rw [if_pos hg]
    by_cases hp : (if recvtic < (env k).maketic then recvtic else (env k).maketic)
        < gametic.tdiv ticdup
    · rw [if_pos hp]
      intro hcon
      exact WaitOutcome.noConfusion hcon
    · rw [if_neg hp]
      by_cases hlt : (if recvtic < (env k).maketic then recvtic else (env k).maketic)
          < gametic.tdiv ticdup + counts
      · rw [if_pos hlt, if_pos (hstall k)]
        intro hcon
        exact WaitOutcome.noConfusion hcon
      · rw [if_neg hlt]
        have hG2 : ¬((!playersInGame (env k).connected drone ingame
            || decide ((if recvtic < (env k).maketic then recvtic else (env k).maketic)
                < gametic.tdiv ticdup + counts)) = true) := by
          simp only [hpl k, Bool.not_true, Bool.false_or, decide_eq_true_eq]
          exact hlt
        rw [if_neg hG2]
        intro hcon
        exact WaitOutcome.noConfusion hcon
  · rw [if_neg hg]
    intro hcon
    exact WaitOutcome.noConfusion hcon

/-- C9 witness: a connected client with its local player in game, the
window one tic short, and a clock already past the stall bound. -/
theorem wait_loop_exits_with_players_witness :
    waitLoop 0 1 1 0 1 false [true] (fun _ => ⟨10, 1, true⟩) 2 0 0 true
      ≠ WaitOutcome.spun :=
  wait_loop_exits_with_players 0 1 1 0 1 false [true] (fun _ => ⟨10, 1, true⟩) 0 0 true
    (fun j => by simp [playersInGame]) (fun j => by norm_num [u32sub, u32OfInt])

/-! ## C10 — the local player is skipped on window advancement -/

/-- C10: for a non-drone client, `expand_full_ticcmd` never
reconstructs the local player's input from the network: the delivered
entry at `consoleplayer` stays `TicCmd::default()` and the baseline
`recvwindow_cmd_base[consoleplayer]` is untouched, even when the
packet's `playeringame` bit for that index is set; every other index is
updated (diff applied, baseline replaced) exactly when its bit is set. -/
theorem expand_full_ticcmd_skips_local (cp : Nat) (base : List TicCmd) (cmd : FullTicCmd)
    (hcp : cp < 8) :
    ((expandFullTiccmd cp false base cmd).1.getD cp TicCmd.default = TicCmd.default ∧
     (expandFullTiccmd cp false base cmd).2.getD cp TicCmd.default
       = base.getD cp TicCmd.default) ∧
    (∀ i, i < 8 → i ≠ cp →
      (cmd.playeringame.getD i false = true →
        (expandFullTiccmd cp false base cmd).1.getD i TicCmd.default
          = applyTiccmdDiff (base.getD i TicCmd.default) (cmd.cmds.getD i TicDiff.default) ∧
        (expandFullTiccmd cp false base cmd).2.getD i TicCmd.default
          = (expandFullTiccmd cp false base cmd).1.getD i TicCmd.default) ∧
      (cmd.playeringame.getD i false = false →
        (expandFullTiccmd cp false base cmd).1.getD i TicCmd.default = TicCmd.default ∧
        (expandFullTiccmd cp false base cmd).2.getD i TicCmd.default
          = base.getD i TicCmd.default)) := by
  have e1 : (expandFullTiccmd cp false base cmd).1
      = (List.range 8).map (fun i =>
          if i = cp ∧ false = false then TicCmd.default
          else if cmd.playeringame.getD i false then
            applyTiccmdDiff (base.getD i TicCmd.default) (cmd.cmds.getD i TicDiff.default)
          else TicCmd.default) := rfl
  have e2 : (expandFullTiccmd cp false base cmd).2
      = (List.range 8).map (fun i =>
          if i = cp ∧ false = false then base.getD i TicCmd.default
          else if cmd.playeringame.getD i false then
            applyTiccmdDiff (base.getD i TicCmd.default) (cmd.cmds.getD i TicDiff.default)
          else base.getD i TicCmd.default) := rfl
  constructor
  · constructor
    · rw [e1, getD_map_range8 _ cp _ hcp]
      simp
    · rw [e2, getD_map_range8 _ cp _ hcp]
      simp
  · intro i hi hne
    have hcond : ¬(i = cp ∧ false = false) := fun h => hne h.1
    constructor
    · intro hbit
      constructor
      · rw [e1, getD_map_range8 _ i _ hi, if_neg hcond, if_pos hbit]
      · rw [e1, e2, getD_map_range8 _ i _ hi, getD_map_range8 _ i _ hi,
          if_neg hcond, if_neg hcond, if_pos hbit, if_pos hbit]
    · intro hbit
      have hbit2 : ¬(cmd.playeringame.getD i false = true) := by
        rw [hbit]
        exact Bool.false_ne_true
      constructor
      · rw [e1, getD_map_range8 _ i _ hi, if_neg hcond, if_neg hbit2]
      · rw [e2, getD_map_range8 _ i _ hi, if_neg hcond, if_neg hbit2]

/-- C10 witness: `consoleplayer = 1`, two `playeringame` bits set. -/
theorem expand_full_ticcmd_skips_local_witness :
    (expandFullTiccmd 1 false base10 cmd10).1.getD 1 TicCmd.default = TicCmd.default ∧
    (expandFullTiccmd 1 false base10 cmd10).2.getD 1 TicCmd.default
      = base10.getD 1 TicCmd.default :=
  (expand_full_ticcmd_skips_local 1 base10 cmd10 (by decide)).1

end HydraBot
